import Mathlib

/-!
# Verification of the lite-llm-adapter chat-completion core

Shallow embedding of the request-handling core of the repository:

* `src/routers/chat.py` — the `/v1/chat/completions` handler
  (model resolution, failed-model check, session history, system-prompt
  injection, Redis slot gating, streaming and non-streaming generation,
  history persistence, slot release);
* `src/models/model_loader.py` — the on-demand loader `get_model` with its
  per-model lock, double-checked cache, and the module-level tables
  `LLM_INSTANCES` / `FAILED_MODELS`;
* `src/main.py` — slot-pool initialization in `lifespan`;
* `src/services/concurrency_manager.py` — `RedisQueueSlot.__aenter__`.

Messages are role/content records; the Redis session store is a partial map
from keys to message lists; the slot pool is a token count; the generation
engine is an external oracle (a completion result, or a lazy chunk sequence
with an explicit failure/disconnect point).
-/

namespace LiteLLM

/-- A chat message, as the dicts `{"role": ..., "content": ...}` used
throughout `chat.py` (`ChatMessage.model_dump()`). -/
structure Message where
  role : String
  content : String
deriving DecidableEq, Repr

/-- The Redis string store restricted to session keys: `None` when the key is
absent, `some history` when `session:<id>` holds a JSON-encoded history
(we keep the decoded message list; the JSON round-trip is lossless here). -/
def SessionStore : Type := String → Option (List Message)

/-- `redis_client.set(session_key, ..., ex=3600)`: pointwise update of the
store at one key. -/
def storeSet (st : SessionStore) (key : String) (val : List Message) : SessionStore :=
  fun k => if k = key then some val else st k

/-- The empty Redis store (no session keys present). -/
def emptyStore : SessionStore := fun _ => none

/-- Python `x or d` for an optional string `x`: the default is used both when
the field is `None` and when it is the (falsy) empty string. -/
def pyOrStr (x : Option String) (d : String) : String :=
  match x with
  | some s => if s = "" then d else s
  | none => d

/-- Python truthiness of `model_config.get("system_prompt")`: an absent key
is `None` (falsy), and an empty string is also falsy. -/
def pyTruthyStr : Option String → Bool
  | none => false
  | some s => s ≠ ""

/-! ## Model resolution (`chat.py` lines 39–51) -/

/-- Python's `str.lower()` as used on the ASCII model ids: lowercase the
string character by character. (Defined on the character list so that it
evaluates on literals; `Char.toLower` agrees with `str.lower` on ASCII.) -/
def pyLower (s : String) : String := ⟨s.data.map Char.toLower⟩

/-- The case-insensitive lookup loop of `create_chat_completion`: iterate over
`MODEL_CONFIGS.keys()` in order and return the first configured id whose
lowercase form equals the lowercase requested id (`found_model_id`). -/
def resolveModel (configIds : List String) (modelId : String) : Option String :=
  configIds.find? (fun availableId => pyLower availableId == pyLower modelId)

/-- Python's `repr` of a list of strings, as interpolated by the f-string in
the 404 detail (`list(MODEL_CONFIGS.keys())` renders as `['a', 'b']`). -/
def renderPyList (ids : List String) : String :=
  "[" ++ String.intercalate ", " (ids.map (fun i => "'" ++ i ++ "'")) ++ "]"

/-- The 404 detail string of `create_chat_completion`. -/
def notFoundDetail (modelId : String) (configIds : List String) : String :=
  "Model '" ++ modelId ++ "' not found. Available models: " ++ renderPyList configIds

/-! ## System-prompt injection (`chat.py` lines 88–101) -/

/-- Whether `messages_as_dicts and messages_as_dicts[0].get("role") == "system"`
(the `user_provided_system_prompt` flag). -/
def firstRoleIsSystem : List Message → Bool
  | [] => false
  | m :: _ => m.role == "system"

/-- The injection step: `if default_system_prompt and not
user_provided_system_prompt: messages_as_dicts.insert(0, {"role": "system",
"content": default_system_prompt})`. -/
def injectSystemPrompt (sysPrompt : Option String) (msgs : List Message) : List Message :=
  if pyTruthyStr sysPrompt ∧ ¬ firstRoleIsSystem msgs then
    ⟨"system", sysPrompt.getD ""⟩ :: msgs
  else
    msgs

/-- The prompt built by the handler for session `sessionId`: stored history
(empty when the key is absent) concatenated with the submitted messages, then
the injection step. -/
def handlerMessages (st : SessionStore) (sessionId : String)
    (incoming : List Message) (sysPrompt : Option String) : List Message :=
  let history := (st ("session:" ++ sessionId)).getD []
  injectSystemPrompt sysPrompt (history ++ incoming)

/-! ## Streaming generator (`chat.py` lines 124–158, `stream_generator`) -/

/-- One chunk of the engine's streamed output, reduced to the field the
handler reads: `chunk["choices"][0]["delta"]` with an optional `"content"`
key (`none` when `"content" not in delta`). -/
structure Chunk where
  content : Option String
deriving DecidableEq, Repr

/-- The accumulation loop: `full_response_content += delta.get("content", "")`
for each chunk whose delta carries a `"content"` key. -/
def accumContent (chunks : List Chunk) : String :=
  chunks.foldl (fun acc c => acc ++ c.content.getD "") ""

/-- What the generator yields over SSE: the first session-id chunk, the
JSON-encoded engine chunks, or the error payload from the `except` block. -/
inductive SSEItem where
  | sessionInfo (sessionId : String)
  | chunk (c : Chunk)
  | errorEvent
deriving DecidableEq, Repr

/-- How one run of the streaming generator ends. The engine's chunk iterator
either is exhausted normally after `chunks`, or raises after yielding
`chunks`; or the client disconnects after consuming `consumed` SSE yields,
closing the generator (GeneratorExit at the pending `yield`, which the
`except Exception` clause does not catch). -/
inductive StreamScenario where
  | completes (chunks : List Chunk)
  | failsAfter (chunks : List Chunk)
  | disconnectAfter (chunks : List Chunk) (consumed : Nat)
deriving DecidableEq, Repr

/-- Result of running `stream_generator` to its end: the SSE items yielded,
the Redis store afterwards, and how many times a slot token was `rpush`ed
back (the `finally` block). -/
structure StreamRun where
  yields : List SSEItem
  store : SessionStore
  releases : Nat

/-- `stream_generator` (`chat.py` 124–158): yield the session-id chunk, then
each engine chunk while accumulating content; after normal exhaustion persist
one assistant turn iff any content accumulated; on an engine exception yield
the error payload and persist nothing (the history write sits after the loop
inside the `try`, so it is skipped); on client disconnect stop at the pending
yield with no error chunk and no write. In every case the `finally` block
returns the slot exactly once when one was held. -/
def runStreamGenerator (slot : Bool) (st : SessionStore) (sessionId : String)
    (msgs : List Message) (sc : StreamScenario) : StreamRun :=
  let rel : Nat := cond slot 1 0
  match sc with
  | .completes chunks =>
      let full := accumContent chunks
      let st' := if full ≠ "" then
          storeSet st ("session:" ++ sessionId) (msgs ++ [⟨"assistant", full⟩])
        else st
      ⟨SSEItem.sessionInfo sessionId :: chunks.map SSEItem.chunk, st', rel⟩
  | .failsAfter chunks =>
      ⟨SSEItem.sessionInfo sessionId :: chunks.map SSEItem.chunk ++ [SSEItem.errorEvent],
       st, rel⟩
  | .disconnectAfter chunks consumed =>
      let fullYields := SSEItem.sessionInfo sessionId :: chunks.map SSEItem.chunk
      if consumed ≥ fullYields.length then
        -- the client consumed every yield, so the generator body ran to its end
        let full := accumContent chunks
        let st' := if full ≠ "" then
            storeSet st ("session:" ++ sessionId) (msgs ++ [⟨"assistant", full⟩])
          else st
        ⟨fullYields, st', rel⟩
      else
        ⟨fullYields.take consumed, st, rel⟩

/-! ## Non-streaming branch (`chat.py` lines 159–184) -/

/-- The errors `create_chat_completion` can raise, with their HTTP status. -/
inductive HandlerErr where
  | notFound (detail : String)
  | failedModel (detail : String)
  | inconsistency (detail : String)
  | unhandledException
  | queueUnavailable (detail : String)
  | busy (detail : String)
  | generation (detail : String)
deriving DecidableEq, Repr

/-- Status code of each error: `HTTPException(status_code=...)` in `chat.py`,
or FastAPI's 500 for an exception that escapes the handler. -/
def HandlerErr.statusCode : HandlerErr → Nat
  | .notFound _ => 404
  | .failedModel _ => 500
  | .inconsistency _ => 500
  | .unhandledException => 500
  | .queueUnavailable _ => 503
  | .busy _ => 503
  | .generation _ => 500

/-- The non-streaming JSON response, reduced to the fields the claims read:
`response["choices"][0]["message"]` and the injected `response["session_id"]`. -/
structure ChatResponse where
  message : Message
  sessionId : String
deriving DecidableEq, Repr

/-- Result of the non-streaming branch: its outcome, the Redis store
afterwards, and how many slot tokens the `finally` block `rpush`ed back. -/
structure NonStreamRun where
  result : Except HandlerErr ChatResponse
  store : SessionStore
  releases : Nat

/-- The non-streaming branch (`chat.py` 159–184): on engine success, persist
`messages_as_dicts + [assistant_message]` under the session key and answer
with the assistant message plus the session id; on an engine exception raise
a 500 carrying the cause and leave the store untouched. Either way the
`finally` block returns the slot exactly once when one was held. -/
def runNonStreaming (slot : Bool) (st : SessionStore) (sessionId : String)
    (msgs : List Message) (gen : Except String Message) : NonStreamRun :=
  let rel : Nat := cond slot 1 0
  match gen with
  | .ok assistantMessage =>
      let updatedHistory := msgs ++ [assistantMessage]
      ⟨.ok ⟨assistantMessage, sessionId⟩,
       storeSet st ("session:" ++ sessionId) updatedHistory, rel⟩
  | .error e =>
      ⟨.error (.generation ("An error occurred during model generation: " ++ e)),
       st, rel⟩

/-- The non-streaming branch composed with history load and prompt building,
for a request carrying session id `sessionId` and messages `incoming`. -/
def nonStreamingPipeline (slot : Bool) (st : SessionStore) (sessionId : String)
    (incoming : List Message) (sysPrompt : Option String)
    (gen : Except String Message) : NonStreamRun :=
  runNonStreaming slot st sessionId (handlerMessages st sessionId incoming sysPrompt) gen

/-! ## Slot acquisition (`chat.py` lines 108–122 and
`concurrency_manager.py` `RedisQueueSlot.__aenter__`) -/

/-- Outcome of the slot-gating step of a single request. `noSlot` is the
path where gating is disabled and `slot` stays `None`; `acquired` is a
successful `blpop`; the two failures are the 503 raises. -/
inductive AcquireResult where
  | noSlot
  | acquired
  | busyTimeout
  | redisError
deriving DecidableEq, Repr

/-- The gating step of `create_chat_completion` (`chat.py` 108–122): when
`MAX_CONCURRENT_REQUESTS > 0`, `blpop` the pool — an exception from Redis
(`redisOk = false`) raises a connection 503, an empty pool times out and
raises a busy 503, otherwise one token is taken; when the limit is `<= 0`
the whole block is skipped. Returns the outcome, the pool afterwards, and
whether a `blpop` was attempted.

`pool = 0` stands for the single-request view in which no other request
releases a token during the 120-second wait, so `blpop` returns `None`. -/
def acquireSlot (maxRequests : Int) (pool : Nat) (redisOk : Bool) :
    AcquireResult × Nat × Bool :=
  if maxRequests > 0 then
    if ¬ redisOk then (.redisError, pool, true)
    else if pool > 0 then (.acquired, pool - 1, true)
    else (.busyTimeout, pool, true)
  else
    (.noSlot, pool, false)

/-- `RedisQueueSlot.__aenter__` (`concurrency_manager.py` 21–36): identical
gating — return immediately with `self.slot = None` when `max_requests <= 0`,
otherwise `blpop` with the same two 503 failure paths. -/
def aenterSlot (maxRequests : Int) (pool : Nat) (redisOk : Bool) :
    AcquireResult × Nat × Bool :=
  if maxRequests ≤ 0 then (.noSlot, pool, false)
  else if ¬ redisOk then (.redisError, pool, true)
  else if pool > 0 then (.acquired, pool - 1, true)
  else (.busyTimeout, pool, true)

/-! ## The slot pool as a transition system (`main.py` lifespan +
paired acquire/release) -/

/-- One pool operation: a successful `blpop` by some request, or the matching
`rpush "1"` when that request finishes. -/
inductive SlotOp where
  | acquire
  | release
deriving DecidableEq, Repr

/-- Pool state: tokens currently queued under `llm_processing_slots`, and
tickets acquired but not yet released. -/
structure PoolState where
  pool : Nat
  outstanding : Nat
deriving DecidableEq, Repr

/-- Startup (`main.py` 59–68): the queue key is deleted, then
`max_concurrent_requests` tokens are pushed (none when it is not positive);
no request is in flight yet. -/
def initPool (n : Nat) : PoolState := ⟨n, 0⟩

/-- Effect of one operation. An acquire on an empty pool is a `blpop`
timeout: the request fails with 503 and holds nothing, so the state is
unchanged. A release is `rpush "1"` by a request that held a ticket. -/
def stepPool (s : PoolState) (op : SlotOp) : PoolState :=
  match op with
  | .acquire => if s.pool > 0 then ⟨s.pool - 1, s.outstanding + 1⟩ else s
  | .release => ⟨s.pool + 1, s.outstanding - 1⟩

/-- Run a sequence of operations from a state. -/
def runPool (s : PoolState) (ops : List SlotOp) : PoolState :=
  ops.foldl stepPool s

/-- A sequence of operations is paired when every release is performed by a
request that actually holds a ticket at that moment (acquire/release come in
pairs, releases never outnumber acquires). -/
def pairedFrom (s : PoolState) : List SlotOp → Bool
  | [] => true
  | SlotOp.acquire :: ops => pairedFrom (stepPool s .acquire) ops
  | SlotOp.release :: ops => s.outstanding != 0 && pairedFrom (stepPool s .release) ops

/-! ## The on-demand loader as a transition system
(`model_loader.py` `get_model`, lines 81–119) -/

/-- Where one asyncio task stands inside `get_model` for a fixed model id.
Instances are numbered by creation order; `done (some i)` is a normal return
of instance `i`, `done none` a propagated constructor exception. -/
inductive TaskPC where
  | idle
  | start
  | waitLock
  | doubleCheck
  | constructing
  | done (result : Option Nat)
deriving DecidableEq, Repr

/-- Shared state for one model id: `LLM_INSTANCES[model_id]`,
`MODEL_LOCKS[model_id]` (holder task, if any), `FAILED_MODELS[model_id]`,
every task's position, and a counter giving fresh instance numbers. -/
structure LoaderState where
  instTable : Option Nat
  lockHeld : Option Nat
  failed : Option String
  tasks : Nat → TaskPC
  nextInst : Nat

/-- Interleaving semantics of `get_model`: each step is one task moving
through the function. The fast path reads `LLM_INSTANCES` without the lock;
`async with MODEL_LOCKS[model_id]` admits one task at a time; the
double-check re-reads the table inside the lock; construction runs inside
the lock and either publishes a fresh instance and returns it, or raises —
and `get_model` has no handler, so nothing is written to `FAILED_MODELS`
on the failure path (`failed` is untouched by every step). -/
inductive LoaderStep : LoaderState → LoaderState → Prop where
  | callGetModel (s : LoaderState) (t : Nat) :
      s.tasks t = .idle →
      LoaderStep s { s with tasks := Function.update s.tasks t .start }
  | fastPathHit (s : LoaderState) (t i : Nat) :
      s.tasks t = .start → s.instTable = some i →
      LoaderStep s { s with tasks := Function.update s.tasks t (.done (some i)) }
  | fastPathMiss (s : LoaderState) (t : Nat) :
      s.tasks t = .start → s.instTable = none →
      LoaderStep s { s with tasks := Function.update s.tasks t .waitLock }
  | acquireLock (s : LoaderState) (t : Nat) :
      s.tasks t = .waitLock → s.lockHeld = none →
      LoaderStep s { s with lockHeld := some t,
                            tasks := Function.update s.tasks t .doubleCheck }
  | doubleCheckHit (s : LoaderState) (t i : Nat) :
      s.tasks t = .doubleCheck → s.instTable = some i →
      LoaderStep s { s with lockHeld := none,
                            tasks := Function.update s.tasks t (.done (some i)) }
  | doubleCheckMiss (s : LoaderState) (t : Nat) :
      s.tasks t = .doubleCheck → s.instTable = none →
      LoaderStep s { s with tasks := Function.update s.tasks t .constructing }
  | constructOk (s : LoaderState) (t : Nat) :
      s.tasks t = .constructing →
      LoaderStep s { s with instTable := some s.nextInst,
                            nextInst := s.nextInst + 1,
                            lockHeld := none,
                            tasks := Function.update s.tasks t (.done (some s.nextInst)) }
  | constructFail (s : LoaderState) (t : Nat) :
      s.tasks t = .constructing →
      LoaderStep s { s with lockHeld := none,
                            tasks := Function.update s.tasks t (.done none) }

/-- Process start for one model id: nothing loaded, lock free (created by
`load_models`), `FAILED_MODELS` entry as `load_models` left it (`f0`), no
task inside `get_model` yet. -/
def loaderInit (f0 : Option String) : LoaderState :=
  ⟨none, none, f0, fun _ => .idle, 0⟩

/-- States reachable from process start by interleaved `get_model` calls. -/
inductive LoaderReachable (f0 : Option String) : LoaderState → Prop where
  | init : LoaderReachable f0 (loaderInit f0)
  | step {s s' : LoaderState} :
      LoaderReachable f0 s → LoaderStep s s' → LoaderReachable f0 s'

/-! ## The whole handler (`chat.py` `create_chat_completion`) -/

/-- Number of arguments passed at the call site
`llm = get_model(found_model_id)` (`chat.py` line 61). -/
def getModelCallArgs : Nat := 1

/-- Number of required parameters of
`async def get_model(model_id: str, app_config: AppConfig)`
(`model_loader.py` line 81); neither has a default. -/
def getModelRequiredParams : Nat := 2

/-- The exceptions a Python call itself can raise before the body runs. -/
inductive PyErr where
  | typeError
deriving DecidableEq, Repr

/-- Python call semantics for a function whose parameters all lack defaults:
passing a different number of positional arguments raises `TypeError` at the
call site — for an `async def`, before any coroutine is even created. -/
def callPy (provided required : Nat) : Except PyErr Unit :=
  if provided = required then .ok () else .error .typeError

/-- The configuration fields the handler reads. -/
structure AppCfg where
  defaultModelId : String
  maxConcurrentRequests : Int
deriving DecidableEq, Repr

/-- A `/v1/chat/completions` request body, reduced to the fields the handler
branches on. -/
structure ChatRequest where
  model : Option String
  sessionId : Option String
  messages : List Message
  stream : Bool

/-- Server state touched by one request: the token count under
`llm_processing_slots`, and the session keys. -/
structure ServerState where
  pool : Nat
  sessions : SessionStore

/-- What a request answers with: a JSON completion object or an SSE stream. -/
inductive HandlerOutput where
  | completion (r : ChatResponse)
  | sse (yields : List SSEItem)

/-- `create_chat_completion` (`chat.py` 24–184), end to end: resolve the
model id case-insensitively (404 when unknown, with the configured ids in
the detail); 500 when the id is in `FAILED_MODELS`; then the call
`get_model(found_model_id)` — checked against the loader's signature; were
that call to succeed, the handler would read the session history, build the
prompt, gate on the slot pool and dispatch to the streaming or non-streaming
branch. The engine and the uuid generator are oracles (`gen`, `sc`,
`freshUuid`), as is Redis health during `blpop` (`redisOk`). -/
def createChatCompletion (cfg : AppCfg) (configIds : List String)
    (failedModels : List (String × String)) (sysPromptOf : String → Option String)
    (freshUuid : String) (redisOk : Bool)
    (gen : Except String Message) (sc : StreamScenario)
    (st : ServerState) (req : ChatRequest) :
    ServerState × Except HandlerErr HandlerOutput :=
  let modelId := pyOrStr req.model cfg.defaultModelId
  match resolveModel configIds modelId with
  | none => (st, .error (.notFound (notFoundDetail modelId configIds)))
  | some foundModelId =>
    match failedModels.lookup foundModelId with
    | some reason =>
        (st, .error (.failedModel
          ("Model '" ++ foundModelId ++ "' is configured but failed to load. Reason: "
            ++ reason
            ++ ". Please check server logs and ensure the model file is correctly placed.")))
    | none =>
      match callPy getModelCallArgs getModelRequiredParams with
      | .error _ => (st, .error .unhandledException)
      | .ok _ =>
        -- unreachable at runtime: kept for completeness of the embedding
        let sessionId := pyOrStr req.sessionId freshUuid
        let msgs := handlerMessages st.sessions sessionId req.messages
          (sysPromptOf foundModelId)
        match acquireSlot cfg.maxConcurrentRequests st.pool redisOk with
        | (.redisError, pool', _) =>
            (⟨pool', st.sessions⟩,
             .error (.queueUnavailable "Could not connect to request queue."))
        | (.busyTimeout, pool', _) =>
            (⟨pool', st.sessions⟩,
             .error (.busy "All processing slots are busy; request timed out."))
        | (acq, pool', _) =>
          let slot := acq = AcquireResult.acquired
          if req.stream then
            let run := runStreamGenerator slot st.sessions sessionId msgs sc
            (⟨pool' + run.releases, run.store⟩, .ok (.sse run.yields))
          else
            let run := runNonStreaming slot st.sessions sessionId msgs gen
            (⟨pool' + run.releases, run.store⟩,
             match run.result with
             | .ok r => .ok (.completion r)
             | .error e => .error e)

/-! ## Loader invariant and concrete executions -/

/-- The inductive invariant of the loader transition system: a task inside
the locked region (double-check or construction) holds the lock; a
constructing task sees an empty instance table (it got past the
double-check, and nobody else can publish while it holds the lock); a task
that returned instance `i` returned the published instance; and
`FAILED_MODELS` keeps its startup value — `get_model` never writes it. -/
def LoaderInv (f0 : Option String) (s : LoaderState) : Prop :=
  (∀ t, s.tasks t = .doubleCheck ∨ s.tasks t = .constructing → s.lockHeld = some t) ∧
  (∀ t, s.tasks t = .constructing → s.instTable = none) ∧
  (∀ t i, s.tasks t = .done (some i) → s.instTable = some i) ∧
  s.failed = f0

/-- Task 0 has entered `get_model`. -/
def loaderS1 : LoaderState :=
  { loaderInit none with tasks := Function.update (loaderInit none).tasks 0 .start }

/-- Task 0 missed the fast path (nothing loaded yet). -/
def loaderS2 : LoaderState :=
  { loaderS1 with tasks := Function.update loaderS1.tasks 0 .waitLock }

/-- Task 0 holds `MODEL_LOCKS[model_id]`. -/
def loaderS3 : LoaderState :=
  { loaderS2 with lockHeld := some 0,
                  tasks := Function.update loaderS2.tasks 0 .doubleCheck }

/-- Task 0 missed the double-check and starts constructing. -/
def loaderS4 : LoaderState :=
  { loaderS3 with tasks := Function.update loaderS3.tasks 0 .constructing }

/-- Construction succeeded: instance 0 published, lock free, task 0 returns
instance 0. -/
def loaderS5 : LoaderState :=
  { loaderS4 with instTable := some loaderS4.nextInst,
                  nextInst := loaderS4.nextInst + 1,
                  lockHeld := none,
                  tasks := Function.update loaderS4.tasks 0 (.done (some loaderS4.nextInst)) }

/-- Construction raised instead: lock free, the exception propagates out of
task 0 (`done none`), and nothing was published. -/
def loaderF5 : LoaderState :=
  { loaderS4 with lockHeld := none,
                  tasks := Function.update loaderS4.tasks 0 (.done none) }

/-! ## Theorems -/

/-- Claim C8: for every requested model id (or the configured default when
the field is absent), if some configured id matches it case-insensitively
the request proceeds under that canonical configured id; if none matches,
the handler answers 404 with the list of configured ids in the message. -/
theorem c8_case_insensitive_resolution
    (cfg : AppCfg) (configIds : List String) (failedModels : List (String × String))
    (sysPromptOf : String → Option String) (uuid : String) (redisOk : Bool)
    (gen : Except String Message) (sc : StreamScenario)
    (st : ServerState) (req : ChatRequest) :
    (∀ c, resolveModel configIds (pyOrStr req.model cfg.defaultModelId) = some c →
      c ∈ configIds ∧ pyLower c = pyLower (pyOrStr req.model cfg.defaultModelId)) ∧
    ((∃ i ∈ configIds, pyLower i = pyLower (pyOrStr req.model cfg.defaultModelId)) →
      (resolveModel configIds (pyOrStr req.model cfg.defaultModelId)).isSome = true) ∧
    (resolveModel configIds (pyOrStr req.model cfg.defaultModelId) = none →
      ∃ pre, createChatCompletion cfg configIds failedModels sysPromptOf uuid redisOk
          gen sc st req
        = (st, Except.error (HandlerErr.notFound (pre ++ renderPyList configIds)))) := by
  refine ⟨?_, ?_, ?_⟩
  · intro c hc
    refine ⟨List.mem_of_find?_eq_some hc, ?_⟩
    have hp := List.find?_some hc
    simpa using hp
  · rintro ⟨i, hi, hlow⟩
    rw [resolveModel, List.find?_isSome]
    exact ⟨i, hi, by simpa using hlow⟩
  · intro hnone
    refine ⟨"Model '" ++ pyOrStr req.model cfg.defaultModelId
      ++ "' not found. Available models: ", ?_⟩
    simp only [createChatCompletion, hnone, notFoundDetail]

/-- Claim C8 witness: `"Qwen3-0.6B"` resolves to the configured id
`"qwen3-0.6b"`, and an unknown id yields a 404 whose detail ends with the
rendered list of configured ids. -/
theorem c8_case_insensitive_resolution_witness :
    ("qwen3-0.6b" ∈ ["qwen3-0.6b"] ∧ pyLower "qwen3-0.6b" = pyLower "Qwen3-0.6B") ∧
    (∃ pre, createChatCompletion ⟨"qwen3-0.6b", 3⟩ ["qwen3-0.6b"] [] (fun _ => none)
        "u" true (Except.error "e") (StreamScenario.completes []) ⟨3, emptyStore⟩
        ⟨some "nonexistent-model", none, [], false⟩
      = (⟨3, emptyStore⟩,
         Except.error (HandlerErr.notFound (pre ++ renderPyList ["qwen3-0.6b"])))) := by
  constructor
  · exact (c8_case_insensitive_resolution ⟨"qwen3-0.6b", 3⟩ ["qwen3-0.6b"] []
      (fun _ => none) "u" true (Except.error "e") (StreamScenario.completes [])
      ⟨3, emptyStore⟩ ⟨some "Qwen3-0.6B", none, [], false⟩).1 "qwen3-0.6b" (by decide)
  · exact (c8_case_insensitive_resolution ⟨"qwen3-0.6b", 3⟩ ["qwen3-0.6b"] []
      (fun _ => none) "u" true (Except.error "e") (StreamScenario.completes [])
      ⟨3, emptyStore⟩ ⟨some "nonexistent-model", none, [], false⟩).2.2 (by decide)

/-- Claim C9 counterexample: a descriptor that defines the default system
prompt `""` (an explicit `"system_prompt": ""` entry) is not injected —
Python's truthiness test `if default_system_prompt` rejects the empty
string — so the generation input does not begin with a system message,
contrary to the claim as stated. -/
theorem c9_counterexample :
    injectSystemPrompt (some "") [⟨"user", "hi"⟩] = [⟨"user", "hi"⟩] ∧
    injectSystemPrompt (some "") [⟨"user", "hi"⟩]
      ≠ ⟨"system", ""⟩ :: [Message.mk "user" "hi"] := by
  constructor
  · rfl
  · decide

/-- Claim C9 (amended: the default system prompt must be non-empty): for a
model whose descriptor defines a non-empty default system prompt `P`, if the
first message of history-plus-submitted-messages does not have role
`system`, the list passed to generation is that concatenation with a system
message carrying `P` prepended; if the first message already has role
`system`, the list is passed unchanged. -/
theorem c9_system_prompt_injection (p : String) (msgs : List Message) (hp : p ≠ "") :
    (firstRoleIsSystem msgs = false →
      injectSystemPrompt (some p) msgs = ⟨"system", p⟩ :: msgs) ∧
    (firstRoleIsSystem msgs = true →
      injectSystemPrompt (some p) msgs = msgs) := by
  constructor
  · intro hrole
    simp [injectSystemPrompt, pyTruthyStr, hp, hrole]
  · intro hrole
    simp [injectSystemPrompt, hrole]

/-- Claim C9 witness: prompt `"P"` is injected before a user-first message
list and not injected before a system-first one. -/
theorem c9_system_prompt_injection_witness :
    ("P" ≠ "" ∧
      injectSystemPrompt (some "P") [⟨"user", "hi"⟩]
        = ⟨"system", "P"⟩ :: [Message.mk "user" "hi"]) ∧
    injectSystemPrompt (some "P") [⟨"system", "s"⟩] = [⟨"system", "s"⟩] := by
  refine ⟨⟨by decide, ?_⟩, ?_⟩
  · exact (c9_system_prompt_injection "P" [⟨"user", "hi"⟩] (by decide)).1 (by decide)
  · exact (c9_system_prompt_injection "P" [⟨"system", "s"⟩] (by decide)).2 (by decide)

/-- Claim C10: when `MAX_CONCURRENT_REQUESTS <= 0` the gating step is
skipped entirely — no `blpop` is attempted (third component `false`),
acquisition reports immediate success with the pool untouched, and no 503
(`busyTimeout`/`redisError`) can arise — in the handler's inline gating and
in `RedisQueueSlot.__aenter__` alike, whatever the pool holds and whether
Redis is healthy. -/
theorem c10_gating_disabled (maxRequests : Int) (pool : Nat) (redisOk : Bool)
    (h : maxRequests ≤ 0) :
    acquireSlot maxRequests pool redisOk = (AcquireResult.noSlot, pool, false) ∧
    aenterSlot maxRequests pool redisOk = (AcquireResult.noSlot, pool, false) := by
  constructor
  · unfold acquireSlot
    rw [if_neg (by omega)]
  · unfold aenterSlot
    rw [if_pos h]

/-- Claim C10 witness: with the limit 0, an empty pool, and Redis down,
both gating implementations still succeed immediately without `blpop`. -/
theorem c10_gating_disabled_witness :
    (0 : Int) ≤ 0 ∧
    acquireSlot 0 0 false = (AcquireResult.noSlot, 0, false) ∧
    aenterSlot 0 0 false = (AcquireResult.noSlot, 0, false) := by
  refine ⟨by decide, ?_, ?_⟩
  · exact (c10_gating_disabled 0 0 false (by decide)).1
  · exact (c10_gating_disabled 0 0 false (by decide)).2

/-- Claim C2: once a slot has been acquired, the `finally` blocks of the
streaming generator and of the non-streaming branch return exactly one
token on every exit path — normal completion, generation error, stream
failure, and client disconnect at any yield — never zero and never two. -/
theorem c2_release_exactly_once (st : SessionStore) (sessionId : String)
    (msgs : List Message) (sc : StreamScenario) (gen : Except String Message) :
    (runStreamGenerator true st sessionId msgs sc).releases = 1 ∧
    (runNonStreaming true st sessionId msgs gen).releases = 1 := by
  constructor
  · cases sc with
    | completes chunks => rfl
    | failsAfter chunks => rfl
    | disconnectAfter chunks consumed =>
        simp only [runStreamGenerator]
        split <;> rfl
  · cases gen <;> rfl

/-- Claim C1: for every request whose model id resolves case-insensitively
to a configured id not recorded in `FAILED_MODELS`, the handler raises at
the call `get_model(found_model_id)` — a `TypeError`, since the loader
requires the `app_config` argument and the coroutine is never created, let
alone awaited — so the request ends in an internal (500) error with the
slot pool and the stored session history unchanged: the call site precedes
the history read, the `blpop`, generation, and every history write. -/
theorem c1_get_model_call_error
    (cfg : AppCfg) (configIds : List String) (failedModels : List (String × String))
    (sysPromptOf : String → Option String) (uuid : String) (redisOk : Bool)
    (gen : Except String Message) (sc : StreamScenario)
    (st : ServerState) (req : ChatRequest) (m : String)
    (hres : resolveModel configIds (pyOrStr req.model cfg.defaultModelId) = some m)
    (hfail : failedModels.lookup m = none) :
    createChatCompletion cfg configIds failedModels sysPromptOf uuid redisOk gen sc st req
      = (st, Except.error HandlerErr.unhandledException) ∧
    callPy getModelCallArgs getModelRequiredParams = Except.error PyErr.typeError ∧
    HandlerErr.unhandledException.statusCode = 500 := by
  refine ⟨?_, rfl, rfl⟩
  simp [createChatCompletion, hres, hfail, callPy, getModelCallArgs, getModelRequiredParams]

/-- Claim C1 witness: a well-formed request for the configured (and not
failed) id leaves the concrete server state untouched and ends in the
internal error. -/
theorem c1_get_model_call_error_witness :
    resolveModel ["qwen3-0.6b"]
        (pyOrStr (ChatRequest.mk (some "qwen3-0.6b") (some "s") [⟨"user", "hi"⟩] false).model
          (AppCfg.mk "qwen3-0.6b" 3).defaultModelId) = some "qwen3-0.6b" ∧
    ([] : List (String × String)).lookup "qwen3-0.6b" = none ∧
    createChatCompletion ⟨"qwen3-0.6b", 3⟩ ["qwen3-0.6b"] [] (fun _ => none) "u" true
        (Except.error "e") (StreamScenario.completes []) ⟨3, emptyStore⟩
        ⟨some "qwen3-0.6b", some "s", [⟨"user", "hi"⟩], false⟩
      = (⟨3, emptyStore⟩, Except.error HandlerErr.unhandledException) := by
  refine ⟨by decide, rfl, ?_⟩
  exact (c1_get_model_call_error ⟨"qwen3-0.6b", 3⟩ ["qwen3-0.6b"] [] (fun _ => none)
    "u" true (Except.error "e") (StreamScenario.completes []) ⟨3, emptyStore⟩
    ⟨some "qwen3-0.6b", some "s", [⟨"user", "hi"⟩], false⟩ "qwen3-0.6b"
    (by decide) rfl).1

/-- Claim C5 counterexample: for a model whose descriptor carries the
default system prompt `"P"`, a successful non-streaming request stores the
injected system message too, so the stored history is not
`H ++ U ++ [assistant]` (here it has three messages, not two). -/
theorem c5_counterexample :
    (nonStreamingPipeline true (storeSet emptyStore "session:s" []) "s"
        [⟨"user", "hi"⟩] (some "P") (Except.ok ⟨"assistant", "ok"⟩)).store "session:s"
      ≠ some (([] : List Message) ++ [⟨"user", "hi"⟩] ++ [⟨"assistant", "ok"⟩]) := by
  decide

/-- Claim C5 (amended: what is stored is the generation input — history plus
submitted messages with the default system prompt prepended when the
descriptor defines a non-empty one and the first message is not already a
system message — plus the assistant turn): for a non-streaming request with
session id `S`, prior stored history `H`, and submitted messages `U`, a
successful generation stores `injectSystemPrompt sysPrompt (H ++ U) ++ [a]`
under `S` and the response carries session id `S`; a failed generation
leaves the store untouched and raises a 500 carrying the cause. -/
theorem c5_nonstreaming_session (st : SessionStore) (S : String) (H U : List Message)
    (sysPrompt : Option String) (gen : Except String Message)
    (hH : st ("session:" ++ S) = some H) :
    (∀ a, gen = Except.ok a →
      (nonStreamingPipeline true st S U sysPrompt gen).store ("session:" ++ S)
          = some (injectSystemPrompt sysPrompt (H ++ U) ++ [a]) ∧
      (nonStreamingPipeline true st S U sysPrompt gen).result = Except.ok ⟨a, S⟩) ∧
    (∀ e, gen = Except.error e →
      (nonStreamingPipeline true st S U sysPrompt gen).store = st ∧
      (nonStreamingPipeline true st S U sysPrompt gen).result
          = Except.error
              (HandlerErr.generation ("An error occurred during model generation: " ++ e)) ∧
      (HandlerErr.generation
          ("An error occurred during model generation: " ++ e)).statusCode = 500) := by
  constructor
  · rintro a rfl
    refine ⟨?_, rfl⟩
    simp [nonStreamingPipeline, runNonStreaming, handlerMessages, storeSet, hH]
  · rintro e rfl
    exact ⟨rfl, rfl, rfl⟩

/-- Claim C5 witness: a concrete session with one stored turn gains exactly
the submitted user turn and the assistant reply on success (no prompt
defined, so nothing extra), and keeps its history unchanged on failure. -/
theorem c5_nonstreaming_session_witness :
    (storeSet emptyStore "session:s" [⟨"user", "h0"⟩] : SessionStore) ("session:" ++ "s")
        = some [⟨"user", "h0"⟩] ∧
    (nonStreamingPipeline true (storeSet emptyStore "session:s" [⟨"user", "h0"⟩]) "s"
        [⟨"user", "u1"⟩] none (Except.ok ⟨"assistant", "r"⟩)).store ("session:" ++ "s")
      = some (injectSystemPrompt none ([⟨"user", "h0"⟩] ++ [⟨"user", "u1"⟩])
          ++ [⟨"assistant", "r"⟩]) ∧
    (nonStreamingPipeline true (storeSet emptyStore "session:s" [⟨"user", "h0"⟩]) "s"
        [⟨"user", "u1"⟩] none (Except.error "boom")).store
      = storeSet emptyStore "session:s" [⟨"user", "h0"⟩] := by
  refine ⟨by decide, ?_, ?_⟩
  · exact ((c5_nonstreaming_session _ "s" [⟨"user", "h0"⟩] [⟨"user", "u1"⟩] none _
      (by decide)).1 ⟨"assistant", "r"⟩ rfl).1
  · exact ((c5_nonstreaming_session _ "s" [⟨"user", "h0"⟩] [⟨"user", "u1"⟩] none _
      (by decide)).2 "boom" rfl).1

/-- Claim C6 counterexample: a stream that raises after yielding the content
fragment `"par"` persists nothing — the session key stays absent — even
though content had accumulated, because the history write sits after the
loop inside the `try` and is skipped when the loop raises. -/
theorem c6_counterexample :
    (runStreamGenerator true emptyStore "s" [⟨"user", "hi"⟩]
        (StreamScenario.failsAfter [⟨some "par"⟩])).store "session:s" = none ∧
    accumContent [⟨some "par"⟩] ≠ "" := by
  exact ⟨rfl, by decide⟩

/-- Claim C6 (amended: on a mid-stream failure the error chunk is emitted
and the slot released, but the accumulated partial content is NOT persisted
— no assistant turn is written on failure regardless of accumulation; an
assistant turn is persisted only when the chunk sequence is exhausted
normally with non-empty accumulated content). -/
theorem c6_stream_failure_no_persist (st : SessionStore) (sid : String)
    (msgs : List Message) (chunks : List Chunk) :
    (runStreamGenerator true st sid msgs (StreamScenario.failsAfter chunks)).yields
        = SSEItem.sessionInfo sid :: chunks.map SSEItem.chunk ++ [SSEItem.errorEvent] ∧
    (runStreamGenerator true st sid msgs (StreamScenario.failsAfter chunks)).releases = 1 ∧
    (runStreamGenerator true st sid msgs (StreamScenario.failsAfter chunks)).store = st ∧
    (accumContent chunks ≠ "" →
      (runStreamGenerator true st sid msgs (StreamScenario.completes chunks)).store
        = storeSet st ("session:" ++ sid) (msgs ++ [⟨"assistant", accumContent chunks⟩])) := by
  refine ⟨rfl, rfl, rfl, ?_⟩
  intro h
  simp only [runStreamGenerator]
  rw [if_pos h]

/-- Claim C6 witness: failing after the fragment `"a"` emits the error
chunk, releases the slot, and leaves the store untouched; the same chunks
exhausted normally do persist the assistant turn. -/
theorem c6_stream_failure_no_persist_witness :
    (runStreamGenerator true emptyStore "w" [] (StreamScenario.failsAfter [⟨some "a"⟩])).store
        = emptyStore ∧
    accumContent [⟨some "a"⟩] ≠ "" ∧
    (runStreamGenerator true emptyStore "w" [] (StreamScenario.completes [⟨some "a"⟩])).store
      = storeSet emptyStore ("session:" ++ "w")
          ([] ++ [⟨"assistant", accumContent [⟨some "a"⟩]⟩]) := by
  refine ⟨?_, by decide, ?_⟩
  · exact (c6_stream_failure_no_persist emptyStore "w" [] [⟨some "a"⟩]).2.2.1
  · exact (c6_stream_failure_no_persist emptyStore "w" [] [⟨some "a"⟩]).2.2.2 (by decide)

/-- The pool-plus-outstanding total is conserved by every paired sequence of
operations (a `blpop` timeout changes nothing, a successful `blpop` moves a
token out, an `rpush` moves it back). -/
theorem pairedFrom_sum (ops : List SlotOp) : ∀ s : PoolState,
    pairedFrom s ops = true →
    (runPool s ops).pool + (runPool s ops).outstanding = s.pool + s.outstanding := by
  induction ops with
  | nil => intro s _; rfl
  | cons op ops ih =>
    intro s h
    cases op with
    | acquire =>
      have h' : pairedFrom (stepPool s .acquire) ops = true := by
        simpa [pairedFrom] using h
      have hrec := ih (stepPool s .acquire) h'
      have hstep : (stepPool s .acquire).pool + (stepPool s .acquire).outstanding
          = s.pool + s.outstanding := by
        by_cases hp : s.pool > 0
        · simp only [stepPool, if_pos hp]
          omega
        · simp only [stepPool, if_neg hp]
      calc (runPool s (SlotOp.acquire :: ops)).pool
            + (runPool s (SlotOp.acquire :: ops)).outstanding
          = (runPool (stepPool s .acquire) ops).pool
            + (runPool (stepPool s .acquire) ops).outstanding := rfl
        _ = (stepPool s .acquire).pool + (stepPool s .acquire).outstanding := hrec
        _ = s.pool + s.outstanding := hstep
    | release =>
      have hsplit := h
      rw [pairedFrom] at hsplit
      rw [Bool.and_eq_true, bne_iff_ne] at hsplit
      obtain ⟨h1, h2⟩ := hsplit
      have hrec := ih (stepPool s .release) h2
      have hstep : (stepPool s .release).pool + (stepPool s .release).outstanding
          = s.pool + s.outstanding := by
        unfold stepPool
        simp only
        omega
      calc (runPool s (SlotOp.release :: ops)).pool
            + (runPool s (SlotOp.release :: ops)).outstanding
          = (runPool (stepPool s .release) ops).pool
            + (runPool (stepPool s .release) ops).outstanding := rfl
        _ = (stepPool s .release).pool + (stepPool s .release).outstanding := hrec
        _ = s.pool + s.outstanding := hstep

/-- Claim C3: from the pool initialized at startup (key deleted, then
`max_concurrent_requests` tokens pushed), after any paired sequence of
acquire/release operations the outstanding tickets never exceed the
capacity and the pool never holds more than the capacity in tokens. -/
theorem c3_pool_capacity (n : Nat) (ops : List SlotOp)
    (h : pairedFrom (initPool n) ops = true) :
    (runPool (initPool n) ops).outstanding ≤ n ∧
    (runPool (initPool n) ops).pool ≤ n := by
  have hsum := pairedFrom_sum ops (initPool n) h
  have hinit : (initPool n).pool + (initPool n).outstanding = n := by
    simp [initPool]
  omega

/-- Claim C3 witness: two acquires, a release, and another acquire against a
capacity-2 pool are paired and end within the bounds. -/
theorem c3_pool_capacity_witness :
    pairedFrom (initPool 2)
        [SlotOp.acquire, SlotOp.acquire, SlotOp.release, SlotOp.acquire] = true ∧
    (runPool (initPool 2)
        [SlotOp.acquire, SlotOp.acquire, SlotOp.release, SlotOp.acquire]).outstanding ≤ 2 ∧
    (runPool (initPool 2)
        [SlotOp.acquire, SlotOp.acquire, SlotOp.release, SlotOp.acquire]).pool ≤ 2 := by
  refine ⟨by decide, ?_, ?_⟩
  · exact (c3_pool_capacity 2
      [SlotOp.acquire, SlotOp.acquire, SlotOp.release, SlotOp.acquire] (by decide)).1
  · exact (c3_pool_capacity 2
      [SlotOp.acquire, SlotOp.acquire, SlotOp.release, SlotOp.acquire] (by decide)).2

/-- The invariant holds at process start. -/
theorem loaderInv_init (f0 : Option String) : LoaderInv f0 (loaderInit f0) := by
  refine ⟨fun t h => ?_, fun t h => ?_, fun t i h => ?_, rfl⟩
  · rcases h with h | h <;> simp [loaderInit] at h
  · simp [loaderInit] at h
  · simp [loaderInit] at h

/-- The invariant is preserved by every step of `get_model`. -/
theorem loaderInv_step {f0 : Option String} {s s' : LoaderState}
    (hinv : LoaderInv f0 s) (hstep : LoaderStep s s') : LoaderInv f0 s' := by
  obtain ⟨inv1, inv2, inv3, inv4⟩ := hinv
  cases hstep with
  | callGetModel t ht =>
      refine ⟨fun u hu => ?_, fun u hu => ?_, fun u i hu => ?_, inv4⟩ <;>
        dsimp only at hu ⊢ <;> by_cases hut : u = t
      · subst hut; rw [Function.update_same] at hu; rcases hu with h | h <;> simp at h
      · rw [Function.update_noteq hut] at hu; exact inv1 u hu
      · subst hut; rw [Function.update_same] at hu; simp at hu
      · rw [Function.update_noteq hut] at hu; exact inv2 u hu
      · subst hut; rw [Function.update_same] at hu; simp at hu
      · rw [Function.update_noteq hut] at hu; exact inv3 u i hu
  | fastPathHit t i ht hi =>
      refine ⟨fun u hu => ?_, fun u hu => ?_, fun u j hu => ?_, inv4⟩ <;>
        dsimp only at hu ⊢ <;> by_cases hut : u = t
      · subst hut; rw [Function.update_same] at hu; rcases hu with h | h <;> simp at h
      · rw [Function.update_noteq hut] at hu; exact inv1 u hu
      · subst hut; rw [Function.update_same] at hu; simp at hu
      · rw [Function.update_noteq hut] at hu; exact inv2 u hu
      · subst hut; rw [Function.update_same] at hu
        obtain rfl : i = j := by injection hu with h; injection h
        exact hi
      · rw [Function.update_noteq hut] at hu; exact inv3 u j hu
  | fastPathMiss t ht hi =>
      refine ⟨fun u hu => ?_, fun u hu => ?_, fun u j hu => ?_, inv4⟩ <;>
        dsimp only at hu ⊢ <;> by_cases hut : u = t
      · subst hut; rw [Function.update_same] at hu; rcases hu with h | h <;> simp at h
      · rw [Function.update_noteq hut] at hu; exact inv1 u hu
      · subst hut; rw [Function.update_same] at hu; simp at hu
      · rw [Function.update_noteq hut] at hu; exact inv2 u hu
      · subst hut; rw [Function.update_same] at hu; simp at hu
      · rw [Function.update_noteq hut] at hu; exact inv3 u j hu
  | acquireLock t ht hl =>
      refine ⟨fun u hu => ?_, fun u hu => ?_, fun u j hu => ?_, inv4⟩ <;>
        dsimp only at hu ⊢
      · by_cases hut : u = t
        · subst hut; rfl
        · rw [Function.update_noteq hut] at hu
          exact absurd (inv1 u hu) (by simp [hl])
      · by_cases hut : u = t
        · subst hut; rw [Function.update_same] at hu; simp at hu
        · rw [Function.update_noteq hut] at hu
          exact absurd (inv1 u (Or.inr hu)) (by simp [hl])
      · by_cases hut : u = t
        · subst hut; rw [Function.update_same] at hu; simp at hu
        · rw [Function.update_noteq hut] at hu; exact inv3 u j hu
  | doubleCheckHit t i ht hi =>
      refine ⟨fun u hu => ?_, fun u hu => ?_, fun u j hu => ?_, inv4⟩ <;>
        dsimp only at hu ⊢
      · by_cases hut : u = t
        · subst hut; rw [Function.update_same] at hu; rcases hu with h | h <;> simp at h
        · rw [Function.update_noteq hut] at hu
          have h1 := inv1 u hu
          have h2 := inv1 t (Or.inl ht)
          rw [h2] at h1
          exact absurd (Option.some.inj h1) (Ne.symm hut)
      · by_cases hut : u = t
        · subst hut; rw [Function.update_same] at hu; simp at hu
        · rw [Function.update_noteq hut] at hu
          have h1 := inv1 u (Or.inr hu)
          have h2 := inv1 t (Or.inl ht)
          rw [h2] at h1
          exact absurd (Option.some.inj h1) (Ne.symm hut)
      · by_cases hut : u = t
        · subst hut; rw [Function.update_same] at hu
          obtain rfl : i = j := by injection hu with h; injection h
          exact hi
        · rw [Function.update_noteq hut] at hu; exact inv3 u j hu
  | doubleCheckMiss t ht hi =>
      refine ⟨fun u hu => ?_, fun u hu => ?_, fun u j hu => ?_, inv4⟩ <;>
        dsimp only at hu ⊢
      · by_cases hut : u = t
        · subst hut; exact inv1 u (Or.inl ht)
        · rw [Function.update_noteq hut] at hu; exact inv1 u hu
      · exact hi
      · by_cases hut : u = t
        · subst hut; rw [Function.update_same] at hu; simp at hu
        · rw [Function.update_noteq hut] at hu
          have h3 := inv3 u j hu
          rw [hi] at h3
          simp at h3
  | constructOk t ht =>
      refine ⟨fun u hu => ?_, fun u hu => ?_, fun u j hu => ?_, inv4⟩ <;>
        dsimp only at hu ⊢
      · by_cases hut : u = t
        · subst hut; rw [Function.update_same] at hu; rcases hu with h | h <;> simp at h
        · rw [Function.update_noteq hut] at hu
          have h1 := inv1 u hu
          have h2 := inv1 t (Or.inr ht)
          rw [h2] at h1
          exact absurd (Option.some.inj h1) (Ne.symm hut)
      · by_cases hut : u = t
        · subst hut; rw [Function.update_same] at hu; simp at hu
        · rw [Function.update_noteq hut] at hu
          have h1 := inv1 u (Or.inr hu)
          have h2 := inv1 t (Or.inr ht)
          rw [h2] at h1
          exact absurd (Option.some.inj h1) (Ne.symm hut)
      · by_cases hut : u = t
        · subst hut; rw [Function.update_same] at hu
          obtain rfl : j = s.nextInst := by
            injection hu with h
            exact (Option.some.inj h).symm
          rfl
        · rw [Function.update_noteq hut] at hu
          have h3 := inv3 u j hu
          rw [inv2 t ht] at h3
          simp at h3
  | constructFail t ht =>
      refine ⟨fun u hu => ?_, fun u hu => ?_, fun u j hu => ?_, inv4⟩ <;>
        dsimp only at hu ⊢
      · by_cases hut : u = t
        · subst hut; rw [Function.update_same] at hu; rcases hu with h | h <;> simp at h
        · rw [Function.update_noteq hut] at hu
          have h1 := inv1 u hu
          have h2 := inv1 t (Or.inr ht)
          rw [h2] at h1
          exact absurd (Option.some.inj h1) (Ne.symm hut)
      · by_cases hut : u = t
        · subst hut; rw [Function.update_same] at hu; simp at hu
        · rw [Function.update_noteq hut] at hu
          have h1 := inv1 u (Or.inr hu)
          have h2 := inv1 t (Or.inr ht)
          rw [h2] at h1
          exact absurd (Option.some.inj h1) (Ne.symm hut)
      · by_cases hut : u = t
        · subst hut; rw [Function.update_same] at hu; simp at hu
        · rw [Function.update_noteq hut] at hu; exact inv3 u j hu

/-- The invariant holds in every reachable state. -/
theorem loaderInv_reachable {f0 : Option String} {s : LoaderState}
    (h : LoaderReachable f0 s) : LoaderInv f0 s := by
  induction h with
  | init => exact loaderInv_init f0
  | step hr hs ih => exact loaderInv_step ih hs

/-- Claim C4: under any interleaving of concurrent `get_model` callers for
one model id, at most one construction attempt executes at any moment (the
per-model lock plus the double-check), and every caller that returns
successfully returns the one instance published to `LLM_INSTANCES`: all
successful returns agree with the table and with each other. -/
theorem c4_single_construction (f0 : Option String) (s : LoaderState)
    (h : LoaderReachable f0 s) :
    (∀ t t', s.tasks t = TaskPC.constructing → s.tasks t' = TaskPC.constructing → t = t') ∧
    (∀ t i, s.tasks t = TaskPC.done (some i) → s.instTable = some i) ∧
    (∀ t t' i i', s.tasks t = TaskPC.done (some i) →
      s.tasks t' = TaskPC.done (some i') → i = i') := by
  obtain ⟨inv1, _, inv3, _⟩ := loaderInv_reachable h
  refine ⟨?_, inv3, ?_⟩
  · intro t t' ht ht'
    have h1 := inv1 t (Or.inr ht)
    have h2 := inv1 t' (Or.inr ht')
    rw [h1] at h2
    exact Option.some.inj h2
  · intro t t' i i' ht ht'
    have h1 := inv3 t i ht
    have h2 := inv3 t' i' ht'
    rw [h1] at h2
    exact Option.some.inj h2

/-- Claim C4 witness: after the concrete run in which task 0 enters
`get_model`, misses the fast path, takes the lock, misses the double-check,
and constructs successfully, the value it returned is exactly the instance
published to the table. -/
theorem c4_single_construction_witness :
    loaderS5.tasks 0 = TaskPC.done (some 0) ∧ loaderS5.instTable = some 0 := by
  have hreach : LoaderReachable none loaderS5 :=
    LoaderReachable.step
      (LoaderReachable.step
        (LoaderReachable.step
          (LoaderReachable.step
            (LoaderReachable.step LoaderReachable.init
              (LoaderStep.callGetModel (loaderInit none) 0 rfl))
            (LoaderStep.fastPathMiss loaderS1 0 rfl rfl))
          (LoaderStep.acquireLock loaderS2 0 rfl rfl))
        (LoaderStep.doubleCheckMiss loaderS3 0 rfl rfl))
      (LoaderStep.constructOk loaderS4 0 rfl)
  exact ⟨rfl, (c4_single_construction none loaderS5 hreach).2.1 0 0 rfl⟩

/-- Claim C7 counterexample: in the concrete run where construction fails
inside `get_model`, the exception propagates out of task 0 while
`FAILED_MODELS` still has no record for the id — `get_model` has no
`except` clause writing one — so the recorded-failure fast path never
triggers for construction failures. -/
theorem c7_counterexample :
    LoaderReachable none loaderF5 ∧
    loaderF5.tasks 0 = TaskPC.done none ∧
    loaderF5.failed = none := by
  refine ⟨?_, rfl, rfl⟩
  exact LoaderReachable.step
    (LoaderReachable.step
      (LoaderReachable.step
        (LoaderReachable.step
          (LoaderReachable.step LoaderReachable.init
            (LoaderStep.callGetModel (loaderInit none) 0 rfl))
          (LoaderStep.fastPathMiss loaderS1 0 rfl rfl))
        (LoaderStep.acquireLock loaderS2 0 rfl rfl))
      (LoaderStep.doubleCheckMiss loaderS3 0 rfl rfl))
    (LoaderStep.constructFail loaderS4 0 rfl)

/-- Claim C7 (amended: `get_model` never writes `FAILED_MODELS` — the
entry keeps whatever value startup's `load_models` gave it, so a
construction failure propagates unrecorded and later requests re-attempt
construction; fail-fast applies only to failures recorded at startup,
which the router checks before calling the loader). -/
theorem c7_no_failure_record (f0 : Option String) (s : LoaderState)
    (h : LoaderReachable f0 s) : s.failed = f0 :=
  (loaderInv_reachable h).2.2.2

/-- Claim C7 witness: the failed-construction run still shows the startup
value (`none`) in `FAILED_MODELS`. -/
theorem c7_no_failure_record_witness : loaderF5.failed = none := by
  have hreach : LoaderReachable none loaderF5 :=
    LoaderReachable.step
      (LoaderReachable.step
        (LoaderReachable.step
          (LoaderReachable.step
            (LoaderReachable.step LoaderReachable.init
              (LoaderStep.callGetModel (loaderInit none) 0 rfl))
            (LoaderStep.fastPathMiss loaderS1 0 rfl rfl))
          (LoaderStep.acquireLock loaderS2 0 rfl rfl))
        (LoaderStep.doubleCheckMiss loaderS3 0 rfl rfl))
      (LoaderStep.constructFail loaderS4 0 rfl)
  exact c7_no_failure_record none loaderF5 hreach

end LiteLLM
